import Mathlib

/-!
Verification development for the RecipeLLM MCP server (src/mcp).

The stateful core of the repository — the credential bootstrap in
src/mcp/main.py and the agent provisioner in src/mcp/letta_mcp.py —
is embedded shallowly below.  HTTP backends are modelled as oracles
(functions from request data to responses); the credential file and
the call counts of each external endpoint are threaded as explicit
state.  Python truthiness of optional strings (None and "" are falsy)
is modelled by `pyTruthy`.
-/

/-- Truthiness of a Python `Optional[str]`: `None` and `""` are falsy. -/
def pyTruthy : Option String → Bool
  | none => false
  | some s => !s.isEmpty

/-- Contents of the persisted credential file /app/data/mealie_api_token.json:
the value of its "token" field (`none` when the field is missing).  An absent
or unparseable file is `none` at the `Option TokenFile` layer. -/
structure TokenFile where
  token : Option String
  deriving DecidableEq

/-- Embeds `load_api_token` (main.py:52): returns the "token" field if the
file exists and parses, `none` otherwise. -/
def load_api_token (file : Option TokenFile) : Option String :=
  match file with
  | none => none
  | some data => data.token

/-- Oracle for the HTTP responses of the Mealie backend.
`validateResp tok` is the status of `GET /api/users/self` with bearer `tok`
(`none` models a network exception).
`authTokenResp u p` is the `access_token` field extracted from the response
to `POST /api/auth/token` (`none` models any exception: network error,
non-JSON body, or missing field).
`createTokenResp auth` is the (status, "token" field) of the response to
`POST /api/users/api-tokens` with bearer `auth` (the session credential may
be Python `None`, rendered into the header); `none` models an exception. -/
structure MealieEnv where
  validateResp : String → Option Nat
  authTokenResp : String → String → Option String
  createTokenResp : Option String → Option (Nat × Option String)

/-- File state plus per-endpoint call counters of the bootstrap. -/
structure BootState where
  file : Option TokenFile
  validateCalls : Nat
  loginCalls : Nat
  mintCalls : Nat
  saveCalls : Nat
  deriving DecidableEq

/-- Initial bootstrap state over a given credential file, before any call. -/
def initBootState (file : Option TokenFile) : BootState :=
  { file := file, validateCalls := 0, loginCalls := 0, mintCalls := 0, saveCalls := 0 }

/-- Embeds `save_api_token` (main.py:39): overwrites the credential file with
an object whose "token" field is the new token. -/
def save_api_token (st : BootState) (token : String) : BootState :=
  { st with file := some { token := some token }, saveCalls := st.saveCalls + 1 }

/-- Embeds `validate_api_token` (main.py:64): true exactly when the identity
check returns HTTP 200; any other status or an exception yields false. -/
def validate_api_token (env : MealieEnv) (st : BootState) (token : String) :
    Bool × BootState :=
  let st1 := { st with validateCalls := st.validateCalls + 1 }
  match env.validateResp token with
  | some status => if status = 200 then (true, st1) else (false, st1)
  | none => (false, st1)

/-- Embeds `get_auth_token` (main.py:82): the password grant; any failure
yields `none`. -/
def get_auth_token (env : MealieEnv) (st : BootState) (username password : String) :
    Option String × BootState :=
  let st1 := { st with loginCalls := st.loginCalls + 1 }
  (env.authTokenResp username password, st1)

/-- Embeds `create_mealie_api_token` (main.py:101): on HTTP 201 with a truthy
"token" field the token is saved to the file and returned; any other outcome
yields `none` with no save. -/
def create_mealie_api_token (env : MealieEnv) (st : BootState)
    (auth_token : Option String) : Option String × BootState :=
  let st1 := { st with mintCalls := st.mintCalls + 1 }
  match env.createTokenResp auth_token with
  | some r =>
      if r.1 = 201 then
        match r.2 with
        | some tok =>
            if tok.isEmpty then (none, st1) else (some tok, save_api_token st1 tok)
        | none => (none, st1)
      else (none, st1)
  | none => (none, st1)

/-- A Mealie REST client as constructed in `setup` (mealie_client.py:8): the
api key is `Option String` because `setup` may pass Python `None` through. -/
structure MealieClient where
  base_url : String
  api_key : Option String
  deriving DecidableEq

/-- Result of the credential portion of `setup`: the final api key, the
constructed client, and the file/counter state. -/
structure SetupOutcome where
  mealie_api_key : Option String
  mealie_client : MealieClient
  state : BootState
  deriving DecidableEq

/-- Embeds the credential flow of `setup` (main.py:161-193): load the
persisted token; if truthy, validate it and drop it on failure; if no token
remains, log in with the fixed bootstrap identity and mint a new API token;
finally rebind `mealie_api_key` to the token when one is available, keeping
the caller-supplied fallback otherwise, and construct the `MealieClient`. -/
def setup_token_flow (env : MealieEnv) (mealie_base_url : String)
    (mealie_api_key : Option String) (st0 : BootState) : SetupOutcome :=
  let api_token := load_api_token st0.file
  let checked : Option String × BootState :=
    if pyTruthy api_token then
      match api_token with
      | some tok =>
          let r := validate_api_token env st0 tok
          if r.1 then (api_token, r.2) else (none, r.2)
      | none => (api_token, st0)
    else (api_token, st0)
  let minted : Option String × BootState :=
    if pyTruthy checked.1 then checked
    else
      let a := get_auth_token env checked.2 "changeme@example.com" "MyPassword"
      create_mealie_api_token env a.2 a.1
  let key := if pyTruthy minted.1 then minted.1 else mealie_api_key
  { mealie_api_key := key,
    mealie_client := { base_url := mealie_base_url, api_key := key },
    state := minted.2 }

/-- Configuration assembled by the `__main__` block (main.py:329-347). -/
structure MainConfig where
  mealie_base_url : Option String
  mealie_api_key : Option String
  recipellm_mcp_server_url : Option String
  deriving DecidableEq

/-- Embeds the `__main__` startup block (main.py:329-347): reads
MEALIE_BASE_URL and RECIPELLM_MCP_SERVER_URL from the environment, reads the
fallback api key from the credential file via `load_api_token`, and exits
with code 1 (modelled as `Except.error 1`) when either environment value is
falsy. -/
def mainStartup (getenv : String → Option String) (file : Option TokenFile) :
    Except Nat MainConfig :=
  let mealie_base_url := getenv "MEALIE_BASE_URL"
  let mealie_api_key := load_api_token file
  let recipellm_mcp_server_url := getenv "RECIPELLM_MCP_SERVER_URL"
  if pyTruthy mealie_base_url = false then Except.error 1
  else if pyTruthy recipellm_mcp_server_url = false then Except.error 1
  else Except.ok { mealie_base_url := mealie_base_url,
                   mealie_api_key := mealie_api_key,
                   recipellm_mcp_server_url := recipellm_mcp_server_url }

/-- Arguments that `LettaAgent._get_letta` (letta_mcp.py:109-116) passes to
the platform client constructor. -/
structure AsyncLettaCfg where
  base_url : Option String
  token : Option String
  deriving DecidableEq

/-- Embeds `LettaAgent._get_letta` (letta_mcp.py:109-116): reads
LETTA_BASE_URL and LETTA_TOKEN from the environment with no presence check
and hands them to the client constructor. -/
def get_letta (getenv : String → Option String) : AsyncLettaCfg :=
  { base_url := getenv "LETTA_BASE_URL", token := getenv "LETTA_TOKEN" }

/-- C1: When the credential file holds a truthy token and the identity
check answers HTTP 200, the bootstrap returns that token unchanged, performs
no login call, no token-creation call and no write to the credential file,
which is left exactly as it was. -/
theorem valid_persisted_token_reused (env : MealieEnv) (base : String)
    (fallback : Option String) (t : String) (ht : t ≠ "")
    (hv : env.validateResp t = some 200) :
    (setup_token_flow env base fallback
        (initBootState (some { token := some t }))).mealie_api_key = some t ∧
    (setup_token_flow env base fallback
        (initBootState (some { token := some t }))).state.loginCalls = 0 ∧
    (setup_token_flow env base fallback
        (initBootState (some { token := some t }))).state.mintCalls = 0 ∧
    (setup_token_flow env base fallback
        (initBootState (some { token := some t }))).state.saveCalls = 0 ∧
    (setup_token_flow env base fallback
        (initBootState (some { token := some t }))).state.file =
      some { token := some t } := by
  have hne : t.isEmpty = false := by
    cases hempty : t.isEmpty
    · rfl
    · exact absurd ((String.isEmpty_iff t).mp hempty) ht
  simp [setup_token_flow, load_api_token, initBootState, pyTruthy, hne,
    validate_api_token, hv]

/-- Witness for C1 at the spec scenario: file token "abc", validation 200. -/
theorem valid_persisted_token_reused_witness :
    ("abc" : String) ≠ "" ∧
    (setup_token_flow
        { validateResp := fun _ => some 200,
          authTokenResp := fun _ _ => none,
          createTokenResp := fun _ => none }
        "http://mealie" none
        (initBootState (some { token := some "abc" }))).mealie_api_key =
      some "abc" := by
  refine ⟨by decide, ?_⟩
  exact (valid_persisted_token_reused
    { validateResp := fun _ => some 200,
      authTokenResp := fun _ _ => none,
      createTokenResp := fun _ => none }
    "http://mealie" none "abc" (by decide) rfl).1

/-- Auxiliary: a string different from `""` has `isEmpty = false`. -/
theorem isEmpty_eq_false_of_ne (t : String) (h : t ≠ "") : t.isEmpty = false := by
  cases he : t.isEmpty
  · rfl
  · exact absurd ((String.isEmpty_iff t).mp he) h

/-- The mint branch of `setup` (main.py:172-190) from a given intermediate
state: log in with the fixed bootstrap identity, mint an API token from the
resulting session credential, and keep the caller-supplied fallback when the
mint comes back absent. -/
def mintFrom (env : MealieEnv) (base : String) (fallback : Option String)
    (st : BootState) : SetupOutcome :=
  let a := get_auth_token env st "changeme@example.com" "MyPassword"
  let m := create_mealie_api_token env a.2 a.1
  let key := if pyTruthy m.1 then m.1 else fallback
  { mealie_api_key := key,
    mealie_client := { base_url := base, api_key := key },
    state := m.2 }

/-- When the persisted token is falsy, or truthy but not validated by an
HTTP 200, the bootstrap takes the mint branch (with zero or one validation
call made beforehand). -/
theorem setup_token_flow_mint_path (env : MealieEnv) (base : String)
    (fallback : Option String) (file : Option TokenFile)
    (h : pyTruthy (load_api_token file) = false ∨
         ∃ t, load_api_token file = some t ∧ t ≠ "" ∧
           env.validateResp t ≠ some 200) :
    ∃ v, setup_token_flow env base fallback (initBootState file) =
      mintFrom env base fallback { initBootState file with validateCalls := v } := by
  rcases h with h1 | ⟨t0, hl, hne, hv⟩
  · refine ⟨0, ?_⟩
    simp [setup_token_flow, mintFrom, initBootState, h1]
  · refine ⟨1, ?_⟩
    have hne2 : t0.isEmpty = false := isEmpty_eq_false_of_ne t0 hne
    have hval : ∀ st : BootState, (validate_api_token env st t0).1 = false := by
      intro st
      cases hvr : env.validateResp t0 with
      | none => simp [validate_api_token, hvr]
      | some s =>
          have hs : ¬s = 200 := by
            intro hh
            exact hv (by rw [hvr, hh])
          simp [validate_api_token, hvr, hs]
    have hval2 : ∀ st : BootState, (validate_api_token env st t0).2 =
        { st with validateCalls := st.validateCalls + 1 } := by
      intro st
      cases hvr : env.validateResp t0 with
      | none => simp [validate_api_token, hvr]
      | some s => simp [validate_api_token, hvr]; split <;> rfl
    simp [setup_token_flow, mintFrom, initBootState, hl, hval, hval2, pyTruthy, hne2]

/-- The mint branch performs exactly one login call and one token-creation
call on top of the incoming state. -/
theorem mintFrom_calls (env : MealieEnv) (base : String)
    (fallback : Option String) (st : BootState) :
    (mintFrom env base fallback st).state.loginCalls = st.loginCalls + 1 ∧
    (mintFrom env base fallback st).state.mintCalls = st.mintCalls + 1 := by
  unfold mintFrom create_mealie_api_token get_auth_token
  cases hr : env.createTokenResp (env.authTokenResp "changeme@example.com" "MyPassword") with
  | none => simp [hr]
  | some r =>
      by_cases h2 : r.1 = 201
      · cases h3 : r.2 with
        | none => simp [hr, h2, h3]
        | some tok =>
            cases h4 : tok.isEmpty <;> simp [hr, h2, h3, h4, save_api_token]
      · simp [hr, h2]

/-- When the token-creation response is HTTP 201 with a non-empty token,
the mint branch saves exactly that token to the credential file and adopts
it as the api key. -/
theorem mintFrom_success (env : MealieEnv) (base : String)
    (fallback : Option String) (st : BootState) (t : String) (ht : t ≠ "")
    (hr : env.createTokenResp (env.authTokenResp "changeme@example.com" "MyPassword") =
      some (201, some t)) :
    (mintFrom env base fallback st).state.file = some { token := some t } ∧
    (mintFrom env base fallback st).mealie_api_key = some t := by
  have hne := isEmpty_eq_false_of_ne t ht
  simp [mintFrom, get_auth_token, create_mealie_api_token, hr, hne,
    save_api_token, pyTruthy]

/-- When the login step fails and the unauthenticated token-creation attempt
does not produce a usable token, the mint branch returns the fallback key,
performs no save, and leaves the file untouched. -/
theorem mintFrom_failure (env : MealieEnv) (base : String)
    (fallback : Option String) (st : BootState)
    (h1 : env.authTokenResp "changeme@example.com" "MyPassword" = none)
    (h2 : ∀ t, env.createTokenResp none = some (201, some t) → t = "") :
    (mintFrom env base fallback st).mealie_api_key = fallback ∧
    (mintFrom env base fallback st).state.saveCalls = st.saveCalls ∧
    (mintFrom env base fallback st).state.file = st.file ∧
    (mintFrom env base fallback st).mealie_client =
      { base_url := base, api_key := fallback } := by
  unfold mintFrom create_mealie_api_token get_auth_token
  rw [h1]
  cases hr : env.createTokenResp none with
  | none => simp [hr, pyTruthy]
  | some r =>
      by_cases hs : r.1 = 201
      · cases h3 : r.2 with
        | none => simp [hr, hs, h3, pyTruthy]
        | some tok =>
            have : tok = "" := h2 tok (by rw [hr, ← hs, ← h3])
            subst this
            simp [hr, hs, h3, pyTruthy, String.isEmpty]
      · simp [hr, hs, pyTruthy]

/-- C3: When the persisted credential is absent (or falsy) or fails
validation, the bootstrap performs exactly one login call and exactly one
token-creation call; and when the token-creation call answers HTTP 201 with
a non-empty token, the credential file afterwards contains exactly that
newly minted token, which is also the resulting api key of the bootstrap. -/
theorem absent_or_invalid_token_minted (env : MealieEnv) (base : String)
    (fallback : Option String) (file : Option TokenFile)
    (h : pyTruthy (load_api_token file) = false ∨
         ∃ t, load_api_token file = some t ∧ t ≠ "" ∧
           env.validateResp t ≠ some 200) :
    (setup_token_flow env base fallback (initBootState file)).state.loginCalls = 1 ∧
    (setup_token_flow env base fallback (initBootState file)).state.mintCalls = 1 ∧
    ∀ t, t ≠ "" →
      env.createTokenResp (env.authTokenResp "changeme@example.com" "MyPassword") =
        some (201, some t) →
      (setup_token_flow env base fallback (initBootState file)).state.file =
          some { token := some t } ∧
      (setup_token_flow env base fallback (initBootState file)).mealie_api_key =
          some t := by
  obtain ⟨v, heq⟩ := setup_token_flow_mint_path env base fallback file h
  rw [heq]
  refine ⟨(mintFrom_calls env base fallback _).1, (mintFrom_calls env base fallback _).2, ?_⟩
  intro t ht hr
  exact mintFrom_success env base fallback _ t ht hr

/-- Witness for C3: absent file, login yields a session token, the creation
endpoint answers 201 with token "newtok"; one login, one mint, file holds
"newtok". -/
theorem absent_or_invalid_token_minted_witness :
    (pyTruthy (load_api_token none) = false ∨
      ∃ t, load_api_token none = some t ∧ t ≠ "" ∧
        ({ validateResp := fun _ => none,
           authTokenResp := fun _ _ => some "session",
           createTokenResp := fun a => if a = some "session" then some (201, some "newtok") else none } : MealieEnv).validateResp t ≠ some 200) ∧
    (setup_token_flow
        { validateResp := fun _ => none,
          authTokenResp := fun _ _ => some "session",
          createTokenResp := fun a => if a = some "session" then some (201, some "newtok") else none }
        "http://mealie" none (initBootState none)).state.file =
      some { token := some "newtok" } := by
  refine ⟨Or.inl rfl, ?_⟩
  exact ((absent_or_invalid_token_minted
    { validateResp := fun _ => none,
      authTokenResp := fun _ _ => some "session",
      createTokenResp := fun a => if a = some "session" then some (201, some "newtok") else none }
    "http://mealie" none none (Or.inl rfl)).2.2 "newtok" (by decide) rfl).1

/-- C2 as amended: When the credential file is absent, the login step
fails, and the unauthenticated token-creation attempt does not produce a
usable token, the mint returns an absent result and the bootstrap ends in
degraded mode keeping whatever fallback credential was supplied by the
caller at startup; no write to the credential file occurs.  The fallback the
`__main__` block supplies is read from the credential file itself — not from
the environment — so in this scenario it is `none`. -/
theorem absent_credential_login_failure_degraded (env : MealieEnv)
    (base : String) (fallback : Option String)
    (h1 : env.authTokenResp "changeme@example.com" "MyPassword" = none)
    (h2 : ∀ t, env.createTokenResp none = some (201, some t) → t = "") :
    (setup_token_flow env base fallback (initBootState none)).mealie_api_key =
        fallback ∧
    (setup_token_flow env base fallback (initBootState none)).state.saveCalls = 0 ∧
    (setup_token_flow env base fallback (initBootState none)).state.file = none ∧
    (setup_token_flow env base fallback (initBootState none)).state.loginCalls = 1 ∧
    (setup_token_flow env base fallback (initBootState none)).state.mintCalls = 1 ∧
    ∀ g : String → Option String, ∀ c : MainConfig,
      mainStartup g none = Except.ok c → c.mealie_api_key = none := by
  obtain ⟨v, heq⟩ := setup_token_flow_mint_path env base fallback none
    (Or.inl rfl)
  rw [heq]
  obtain ⟨k1, k2, k3, _⟩ := mintFrom_failure env base fallback
    { initBootState none with validateCalls := v } h1 h2
  refine ⟨k1, k2, k3, (mintFrom_calls env base fallback _).1,
    (mintFrom_calls env base fallback _).2, ?_⟩
  intro g c hc
  unfold mainStartup at hc
  by_cases hb : pyTruthy (g "MEALIE_BASE_URL") = false
  · simp [hb] at hc
  · by_cases hrr : pyTruthy (g "RECIPELLM_MCP_SERVER_URL") = false
    · simp [hb, hrr] at hc
    · simp [hb, hrr] at hc
      rw [← hc]
      rfl

/-- Witness for C2: login fails, creation fails, fallback "fb" is kept and
no file is written. -/
theorem absent_credential_login_failure_degraded_witness :
    ({ validateResp := fun _ => none,
       authTokenResp := fun _ _ => none,
       createTokenResp := fun _ => none } : MealieEnv).authTokenResp
        "changeme@example.com" "MyPassword" = none ∧
    (setup_token_flow
        { validateResp := fun _ => none,
          authTokenResp := fun _ _ => none,
          createTokenResp := fun _ => none }
        "http://mealie" (some "fb") (initBootState none)).mealie_api_key =
      some "fb" := by
  refine ⟨rfl, ?_⟩
  exact (absent_credential_login_failure_degraded
    { validateResp := fun _ => none,
      authTokenResp := fun _ _ => none,
      createTokenResp := fun _ => none }
    "http://mealie" (some "fb") rfl (fun t h => by cases h)).1

/-- Counterexample to C2 as stated: even when every environment variable is
set (all to "envcred"), the fallback credential the `__main__` block passes
to the bootstrap is `load_api_token` of the credential file — `none` when
the file is absent — so the degraded bootstrap ends with no credential
rather than with an environment-configured one. -/
theorem fallback_not_from_environment :
    ((fun _ => some "envcred") : String → Option String) "MEALIE_API_KEY" =
        some "envcred" ∧
    mainStartup (fun _ => some "envcred") none =
      Except.ok { mealie_base_url := some "envcred", mealie_api_key := none,
                  recipellm_mcp_server_url := some "envcred" } ∧
    (setup_token_flow
        { validateResp := fun _ => some 200,
          authTokenResp := fun _ _ => none,
          createTokenResp := fun _ => some (401, none) }
        "envcred" none (initBootState none)).mealie_api_key = none ∧
    (none : Option String) ≠ some "envcred" := by
  refine ⟨rfl, rfl, rfl, by decide⟩

/-- Embeds `LettaAgent._set_block_limit` (letta_mcp.py:260-265): 5000 for
`None` or content shorter than 5000 characters, content length plus 1000
otherwise. -/
def set_block_limit (block_content : Option String) : Nat :=
  match block_content with
  | none => 5000
  | some s => if s.length < 5000 then 5000 else s.length + 1000

/-- Modelled from the spec (section 3, memory block sizing rule): capacity is
the larger of the fixed minimum floor (5000) and content length plus the
margin (1000).  Stated for comparison against `set_block_limit`. -/
def spec_block_limit (block_content : Option String) : Nat :=
  match block_content with
  | none => 5000
  | some s => max 5000 (s.length + 1000)

/-- Counterexample to C4 as stated: for a content string of length 4500 the
code computes limit 5000 while the spec formula max(5000, 4500 + 1000) gives
5500; the block can then grow by only 500 characters, less than the margin. -/
theorem block_limit_counterexample :
    set_block_limit (some (String.mk (List.replicate 4500 'a'))) = 5000 ∧
    spec_block_limit (some (String.mk (List.replicate 4500 'a'))) = 5500 ∧
    (5000 : Nat) ≠ 5500 := by
  have hlen : (String.mk (List.replicate 4500 'a')).length = 4500 := by
    show (List.replicate 4500 'a').length = 4500
    exact List.length_replicate 4500 'a'
  refine ⟨?_, ?_, by decide⟩
  · show (if (String.mk (List.replicate 4500 'a')).length < 5000 then 5000
        else (String.mk (List.replicate 4500 'a')).length + 1000) = 5000
    rw [hlen]
    decide
  · show max 5000 ((String.mk (List.replicate 4500 'a')).length + 1000) = 5500
    rw [hlen]
    decide

/-- C4 as amended: The block limit computed at agent creation is the
floor 5000 for content shorter than 5000 characters and content length plus
the margin 1000 otherwise; it agrees with the spec formula
max(floor, length + margin) — equivalently, it leaves at least the margin of
growth room — exactly when the content length is at most 4000 or at least
5000.  For lengths strictly between 4000 and 5000 the limit is the bare
floor, leaving less than the margin. -/
theorem set_block_limit_margin (s : String) :
    (set_block_limit (some s) = spec_block_limit (some s) ↔
      s.length ≤ 4000 ∨ 5000 ≤ s.length) ∧
    (s.length + 1000 ≤ set_block_limit (some s) ↔
      s.length ≤ 4000 ∨ 5000 ≤ s.length) := by
  unfold set_block_limit spec_block_limit
  by_cases h : s.length < 5000 <;> simp [h] <;> omega

/-- Handle of the default chat model, `DEFAULT_LETTA_MODEL`
(letta_mcp.py:20). -/
def DEFAULT_LETTA_MODEL : String := "letta/letta-free"

/-- Handle of the default embedding model, `DEFAULT_LETTA_EMBEDDING`
(letta_mcp.py:22). -/
def DEFAULT_LETTA_EMBEDDING : String := "letta/letta-free"

/-- The chef agent name, `CHEF_AGENT_NAME` (letta_mcp.py:24). -/
def CHEF_AGENT_NAME : String := "chef-agent"

/-- The fixed persona text, `CHEF_PERSONA` (letta_mcp.py:28-94). -/
def CHEF_PERSONA : String := "\nYou are an experienced chef who is training and educating an inexperienced cook in the kitchen.  Your cook will ask you to help out with a recipe, and you will provide context and step by step instructions for your chef.\n\n## Principles\n\nEncourage prep work and mise en place. Encourage principles for efficient cooking:\n\nStart long processes first (preheating, boiling water)\nGroup similar tasks (all chopping together)\nClean as you go during passive cooking time\nHave all ingredients ready before starting active cooking\n\n## Time Management\n\nYour cook may need extra help at prepping and time management, especially understanding which parts of the instructions can be done in parallel and which should be done serially.\n\nTake into account how long it take for water to boil (more water will take longer), and for the oven to preheat, but do not include appliances when they are not necessary in the recipe.  Any step involving passive cooking (baking or simmering) is a good place to look for parallel activities.\nAny step involving active cooking or being in front of a stove (sautéing, grilling, stir-fry) requires your cook\x27s full attention and so cannot be done in parallel.\n\n## Recipe Planning\n\nPlanning may involve both a main dish and a side dish.  \n\nAt the beginning, review both recipes and create a clear timeline covering both dishes, identifying:\n\n* Prep work for both dishes\n* Marination or other waiting periods\n* Active cooking times\n* Passive cooking times\n\nOrganize tasks in order:\n\n* Start with the dish that takes longest (including marination)\n* Use marination or passive cooking time to prep the second dish\n* Plan when to start cooking the side dish so it finishes with the main\n* Be explicit about opportunities for parallel work, saying things like \"While the chicken marinates, let\x27s prep the carrots.\"\n\n##Archival memory\n\nRecord significant events and important information using archival_memory_insert so you can access those memories later.  \n\nFor example, when cooking a recipe, record the recipe name, slug and the context of the conversation.  Record any changes you\x27ve made to core memory.\n\nAlways add a timestamp in the format format \x60YYYY-MM-DDThh:mm:ssX\x60 (X indicating timezone offset) when using archival_memory_insert.\n\nIf your chef asks you about something you don\x27t know, perform an archival_memory_search.\n\n## Mealie\n\nMealie is a recipe manager and meal planner.  \n\nWhen you add a new recipe to Mealie:\n\n* Add a note summarizing your cooking recommendations for the user.\n* Add the recipe slug, recipe name, and a brief description to your archival memory for later reference.\n\n## Recipe Search\n\nWhen your cook is looking for information that you don\x27t have, such as recipes, ingredients, or expiration dates on food, use the web_search function and let your cook know you are looking it up. \n\nSearch results can be unreliable. If you find an appropriate recipe, save it to Mealie *first* and then get the recipe details from the recipe slug to validate the recipe.\n\n\n## Memory Search Protocol\n\nWhen the user asks about something I don\x27t immediately know or references previous conversations, always search BOTH conversational memory AND archival memory before responding. This ensures I have full context and don\x27t miss important details from our cooking sessions.\n"

/-- An agent descriptor as held by the agent platform; `chef_agent_id` reads
only the id of the first agent matching a name. -/
structure Agent where
  id : String
  name : String
  deriving DecidableEq

/-- A memory block as passed to agent creation (`CreateBlock`,
letta_mcp.py:202-213). -/
structure CreateBlock where
  value : Option String
  label : String
  limit : Nat
  deriving DecidableEq

/-- The arguments of one `agents.create` call (letta_mcp.py:239-251). -/
structure CreateArgs where
  name : String
  memory_blocks : List CreateBlock
  model : String
  embedding : String
  tool_ids : List String
  timezone : String
  deriving DecidableEq

/-- The agent platform as the provisioner observes it: the registered
agents, a fresh-id counter, the tool-name resolution of
`tools.add_mcp_tool` (`none` when the platform cannot resolve a name), and
the handles of the currently available models (`models.list`). -/
structure LettaPlatform where
  agents : List Agent
  nextId : Nat
  resolveTool : String -> Option String
  models : List String

/-- Platform state plus the provisioner-side record of create-agent calls. -/
structure ProvisionState where
  platform : LettaPlatform
  createCalls : Nat
  createLog : List CreateArgs

/-- Embeds `self.client.agents.list(name=...)`: the platform filters its
agents by exact name. -/
def agents_list (p : LettaPlatform) (name : String) : List Agent :=
  p.agents.filter (fun a => a.name == name)

/-- Embeds `LettaAgent.chef_agent_id` (letta_mcp.py:124-129): `none` when
zero agents match, the id of the first matching agent otherwise. -/
def chef_agent_id (st : ProvisionState) : Option String :=
  match agents_list st.platform CHEF_AGENT_NAME with
  | [] => none
  | a :: _ => some a.id

/-- Embeds `LettaAgent._find_tool` (letta_mcp.py:267-275): asks the platform
to resolve one tool name from the "recipellm-mcp" tool source. -/
def find_tool (p : LettaPlatform) (name : String) : Option String :=
  p.resolveTool name

/-- Embeds `LettaAgent._find_tools_id` (letta_mcp.py:277-285): resolve each
requested name, appending the resolved id and skipping (with a warning) any
name the platform cannot resolve. -/
def find_tools_id (p : LettaPlatform) (requested_tools : List String) : List String :=
  requested_tools.foldl
    (fun found_tools tool_name =>
      match find_tool p tool_name with
      | some tid => found_tools ++ [tid]
      | none => found_tools)
    []

/-- Embeds `self.client.agents.create`: the platform registers a new agent
under the requested name with a fresh id; the call and its arguments are
recorded. -/
def agents_create (st : ProvisionState) (args : CreateArgs) : String × ProvisionState :=
  let agent_id := "agent-" ++ toString st.platform.nextId
  (agent_id,
   { platform := { st.platform with
       agents := st.platform.agents ++ [{ id := agent_id, name := args.name }],
       nextId := st.platform.nextId + 1 },
     createCalls := st.createCalls + 1,
     createLog := st.createLog ++ [args] })

/-- Embeds `LettaAgent._create_agent` (letta_mcp.py:157-258): build the two
memory blocks with `set_block_limit`, resolve the requested tools, list the
available model handles, raise `ValueError` (modelled as `Except.error`)
when the configured chat model is not among them — before any create call —
and otherwise issue the create call and return the new agent id. -/
def create_agent (st : ProvisionState) (agent_name : String)
    (human_block_content persona_block_content : Option String)
    (letta_model letta_embedding : String) (requested_tools : List String)
    (timezone : String) : Except String String × ProvisionState :=
  let memory_blocks : List CreateBlock :=
    [{ value := human_block_content, label := "human",
       limit := set_block_limit human_block_content },
     { value := persona_block_content, label := "persona",
       limit := set_block_limit persona_block_content }]
  let tool_ids := find_tools_id st.platform requested_tools
  let available_model_names := st.platform.models
  if letta_model ∈ available_model_names then
    let r := agents_create st
      { name := agent_name, memory_blocks := memory_blocks,
        model := letta_model, embedding := letta_embedding,
        tool_ids := tool_ids, timezone := timezone }
    (Except.ok r.1, r.2)
  else
    (Except.error ("Model " ++ letta_model ++ " not found in available models"), st)

/-- Embeds `LettaAgent.create_chef_agent` (letta_mcp.py:131-155): create the
chef agent with empty human block, the fixed persona, the default models,
the three requested Mealie tools and timezone UTC. -/
def create_chef_agent (st : ProvisionState) : Except String String × ProvisionState :=
  create_agent st CHEF_AGENT_NAME (some "") (some CHEF_PERSONA)
    DEFAULT_LETTA_MODEL DEFAULT_LETTA_EMBEDDING
    ["find_recipes_in_mealie", "add_recipe_to_mealie_from_url", "get_recipe_in_mealie"]
    "UTC"

/-- Embeds the provisioning body shared by `create_chef_agent` (main.py:309-315)
and the `/setup` route (main.py:318-324): look the chef agent up by name and,
when the lookup yields nothing truthy, create it; an exception from creation
propagates (there is no try/except around this body). -/
def provision_chef_agent (st : ProvisionState) : Except String (Option String) × ProvisionState :=
  let chef_id := chef_agent_id st
  if pyTruthy chef_id = false then
    match create_chef_agent st with
    | (Except.ok new_id, st2) => (Except.ok (some new_id), st2)
    | (Except.error e, st2) => (Except.error e, st2)
  else (Except.ok chef_id, st)

/-- Embeds `setup_route` (main.py:317-326): run the provisioning body, then
answer "OK"; an exception escapes the handler instead of the OK response. -/
def setup_route (st : ProvisionState) : Except String String × ProvisionState :=
  match provision_chef_agent st with
  | (Except.ok _, st1) => (Except.ok "OK", st1)
  | (Except.error e, st1) => (Except.error e, st1)

/-- Auxiliary: the accumulator loop of `_find_tools_id` collects exactly the
resolvable names, in order. -/
theorem foldl_append_filterMap (f : String → Option String) :
    ∀ (l : List String) (acc : List String),
      l.foldl (fun found name =>
        match f name with
        | some tid => found ++ [tid]
        | none => found) acc = acc ++ l.filterMap f := by
  intro l
  induction l with
  | nil => intro acc; simp
  | cons a t ih =>
      intro acc
      cases hf : f a with
      | none => simp [List.foldl, hf, ih, List.filterMap_cons]
      | some b => simp [List.foldl, hf, ih, List.filterMap_cons]

/-- The resolved tool-id list is the filterMap of the platform resolution
over the requested names. -/
theorem find_tools_id_eq_filterMap (p : LettaPlatform) (requested : List String) :
    find_tools_id p requested = requested.filterMap p.resolveTool := by
  unfold find_tools_id find_tool
  simpa using foldl_append_filterMap p.resolveTool requested []

/-- C5: When a requested tool name is unresolvable, it is skipped: the
resolved tool-id list is exactly the resolution of the remaining names, and
agent creation (given the configured model is available) still proceeds,
issuing one create call whose recorded tool ids are exactly the resolved
ones. -/
theorem unresolvable_tool_skipped (st : ProvisionState) (agent_name : String)
    (hb pb : Option String) (lm le tz : String) (requested : List String)
    (bad : String) (hmem : bad ∈ requested)
    (hbad : st.platform.resolveTool bad = none)
    (hmodel : lm ∈ st.platform.models) :
    find_tools_id st.platform requested =
      requested.filterMap st.platform.resolveTool ∧
    (create_agent st agent_name hb pb lm le requested tz).1 =
      Except.ok ("agent-" ++ toString st.platform.nextId) ∧
    (create_agent st agent_name hb pb lm le requested tz).2.createCalls =
      st.createCalls + 1 ∧
    (create_agent st agent_name hb pb lm le requested tz).2.createLog =
      st.createLog ++
        [{ name := agent_name,
           memory_blocks :=
             [{ value := hb, label := "human", limit := set_block_limit hb },
              { value := pb, label := "persona", limit := set_block_limit pb }],
           model := lm, embedding := le,
           tool_ids := requested.filterMap st.platform.resolveTool,
           timezone := tz }] := by
  refine ⟨find_tools_id_eq_filterMap _ _, ?_, ?_, ?_⟩ <;>
    simp [create_agent, agents_create, hmodel, find_tools_id_eq_filterMap]

/-- Witness for C5: requested tools ["good", "bad"], where "bad" cannot be
resolved; creation succeeds and logs tool ids ["tid-good"]. -/
theorem unresolvable_tool_skipped_witness :
    ("bad" : String) ∈ ["good", "bad"] ∧
    find_tools_id
      { agents := [], nextId := 0,
        resolveTool := fun nm => if nm == "good" then some "tid-good" else none,
        models := ["m"] } ["good", "bad"] = ["tid-good"] ∧
    (create_agent
      { platform :=
          { agents := [], nextId := 0,
            resolveTool := fun nm => if nm == "good" then some "tid-good" else none,
            models := ["m"] },
        createCalls := 0, createLog := [] }
      "a" none none "m" "e" ["good", "bad"] "UTC").1 = Except.ok "agent-0" := by
  have h := unresolvable_tool_skipped
    { platform :=
        { agents := [], nextId := 0,
          resolveTool := fun nm => if nm == "good" then some "tid-good" else none,
          models := ["m"] },
      createCalls := 0, createLog := [] }
    "a" none none "m" "e" "UTC" ["good", "bad"] "bad"
    (by decide) rfl (by decide)
  exact ⟨by decide, by simpa using h.1, by simpa using h.2.1⟩

/-- C8: when the configured chat model is not among the available model
handles of the platform, creation fails with the configuration error and the
state is returned unchanged: no create-agent call reaches the platform. -/
theorem model_unavailable_no_create (st : ProvisionState) (agent_name : String)
    (hb pb : Option String) (lm le tz : String) (requested : List String)
    (hm : lm ∉ st.platform.models) :
    (create_agent st agent_name hb pb lm le requested tz).1 =
      Except.error ("Model " ++ lm ++ " not found in available models") ∧
    (create_agent st agent_name hb pb lm le requested tz).2 = st := by
  simp [create_agent, hm]

/-- Witness for C8: model "nope" against available handles ["m"]. -/
theorem model_unavailable_no_create_witness :
    ("nope" : String) ∉ (["m"] : List String) ∧
    (create_agent
      { platform :=
          { agents := [], nextId := 0, resolveTool := fun _ => none,
            models := ["m"] },
        createCalls := 0, createLog := [] }
      "a" none none "nope" "e" [] "UTC").1 =
        Except.error "Model nope not found in available models" := by
  have h := model_unavailable_no_create
    { platform :=
        { agents := [], nextId := 0, resolveTool := fun _ => none,
          models := ["m"] },
      createCalls := 0, createLog := [] }
    "a" none none "nope" "e" "UTC" [] (by decide)
  exact ⟨by decide, by simpa using h.1⟩

/-- Counterexample to C6 as stated: with no chef agent registered and an
empty available-model list, the /setup route body raises the ValueError from
agent creation; no try/except guards the handler, so the invocation does not
produce the OK response — the failure is surfaced, not hidden. -/
theorem setup_route_surfaces_failure :
    (setup_route
      { platform := { agents := [], nextId := 0, resolveTool := fun _ => none,
                      models := [] },
        createCalls := 0, createLog := [] }).1 =
      Except.error "Model letta/letta-free not found in available models" ∧
    (Except.error "Model letta/letta-free not found in available models" :
        Except String String) ≠ Except.ok "OK" := by
  exact ⟨rfl, fun h => Except.noConfusion h⟩

/-- C6 as amended: The /setup route responds OK exactly when provisioning
does not raise: when the name lookup already finds an agent (truthy id), or
when none is found and the configured default model is among the available
handles so creation succeeds.  Otherwise the exception propagates out of the
handler instead of an OK response being returned. -/
theorem setup_route_ok_iff (st : ProvisionState) :
    (setup_route st).1 = Except.ok "OK" ↔
      (pyTruthy (chef_agent_id st) = true ∨
        DEFAULT_LETTA_MODEL ∈ st.platform.models) := by
  by_cases h : pyTruthy (chef_agent_id st) = true
  · simp [setup_route, provision_chef_agent, h]
  · have hf : pyTruthy (chef_agent_id st) = false := by
      revert h
      cases pyTruthy (chef_agent_id st) <;> simp
    by_cases hm : DEFAULT_LETTA_MODEL ∈ st.platform.models
    · simp [setup_route, provision_chef_agent, hf, create_chef_agent,
        create_agent, hm, agents_create]
    · simp [setup_route, provision_chef_agent, hf, create_chef_agent,
        create_agent, hm, h]

/-- Creating the chef agent when the default model is available: the call
succeeds with the fresh id, appends exactly one agent named chef-agent, and
counts one create call. -/
theorem create_chef_agent_ok (st : ProvisionState)
    (h2 : DEFAULT_LETTA_MODEL ∈ st.platform.models) :
    (create_chef_agent st).1 =
      Except.ok ("agent-" ++ toString st.platform.nextId) ∧
    (create_chef_agent st).2.platform.agents =
      st.platform.agents ++
        [{ id := "agent-" ++ toString st.platform.nextId,
           name := CHEF_AGENT_NAME }] ∧
    (create_chef_agent st).2.createCalls = st.createCalls + 1 := by
  refine ⟨?_, ?_, ?_⟩ <;> simp [create_chef_agent, create_agent, h2, agents_create]

/-- Auxiliary: the ids generated by the platform model are never the empty
string. -/
theorem agent_id_ne_empty (n : Nat) : ("agent-" ++ toString n) ≠ "" := by
  intro h
  have hl : ("agent-" ++ toString n).length = (0 : Nat) := by rw [h]; rfl
  rw [String.length_append] at hl
  have h6 : ("agent-" : String).length = 6 := rfl
  omega

/-- C9: Running the provisioner twice in sequence, starting with no agent
named chef-agent and with the default model available, returns the same agent
id both times, issues exactly one create call during the first run, and zero
create calls during the second. -/
theorem provisioner_idempotent (st0 : ProvisionState)
    (h1 : agents_list st0.platform CHEF_AGENT_NAME = [])
    (h2 : DEFAULT_LETTA_MODEL ∈ st0.platform.models) :
    ∃ id st1 st2,
      provision_chef_agent st0 = (Except.ok (some id), st1) ∧
      provision_chef_agent st1 = (Except.ok (some id), st2) ∧
      st1.createCalls = st0.createCalls + 1 ∧
      st2.createCalls = st1.createCalls := by
  have hchef0 : chef_agent_id st0 = none := by
    unfold chef_agent_id
    rw [h1]
  obtain ⟨hA, hB, hC⟩ := create_chef_agent_ok st0 h2
  rcases hcc : create_chef_agent st0 with ⟨r, S1⟩
  rw [hcc] at hA hB hC
  have hr : r = Except.ok ("agent-" ++ toString st0.platform.nextId) := hA
  have hBa : S1.platform.agents =
      st0.platform.agents ++
        [{ id := "agent-" ++ toString st0.platform.nextId,
           name := CHEF_AGENT_NAME }] := hB
  have hCc : S1.createCalls = st0.createCalls + 1 := hC
  subst hr
  have hrun1 : provision_chef_agent st0 =
      (Except.ok (some ("agent-" ++ toString st0.platform.nextId)), S1) := by
    unfold provision_chef_agent
    rw [hchef0, hcc]
    simp [pyTruthy]
  have hlist1 : agents_list S1.platform CHEF_AGENT_NAME =
      [{ id := "agent-" ++ toString st0.platform.nextId,
         name := CHEF_AGENT_NAME }] := by
    unfold agents_list
    rw [hBa, List.filter_append]
    have h1f : st0.platform.agents.filter (fun a => a.name == CHEF_AGENT_NAME) = [] := h1
    rw [h1f]
    simp
  have hchef1 : chef_agent_id S1 =
      some ("agent-" ++ toString st0.platform.nextId) := by
    unfold chef_agent_id
    rw [hlist1]
  have htr : pyTruthy (chef_agent_id S1) = true := by
    rw [hchef1]
    simp [pyTruthy,
      isEmpty_eq_false_of_ne _ (agent_id_ne_empty st0.platform.nextId)]
  have hrun2 : provision_chef_agent S1 =
      (Except.ok (some ("agent-" ++ toString st0.platform.nextId)), S1) := by
    unfold provision_chef_agent
    rw [hchef1]
    simp [pyTruthy,
      isEmpty_eq_false_of_ne _ (agent_id_ne_empty st0.platform.nextId)]
  exact ⟨"agent-" ++ toString st0.platform.nextId, S1, S1, hrun1, hrun2, hCc, rfl⟩

/-- Witness for C9 from the empty platform with the default model available. -/
theorem provisioner_idempotent_witness :
    agents_list
      ({ platform :=
           { agents := [], nextId := 0, resolveTool := fun _ => some "tid",
             models := ["letta/letta-free"] },
         createCalls := 0, createLog := [] } : ProvisionState).platform
      CHEF_AGENT_NAME = [] ∧
    DEFAULT_LETTA_MODEL ∈
      ({ platform :=
           { agents := [], nextId := 0, resolveTool := fun _ => some "tid",
             models := ["letta/letta-free"] },
         createCalls := 0, createLog := [] } : ProvisionState).platform.models ∧
    ∃ id st1 st2,
      provision_chef_agent
        { platform :=
            { agents := [], nextId := 0, resolveTool := fun _ => some "tid",
              models := ["letta/letta-free"] },
          createCalls := 0, createLog := [] } = (Except.ok (some id), st1) ∧
      provision_chef_agent st1 = (Except.ok (some id), st2) ∧
      st1.createCalls = 0 + 1 ∧
      st2.createCalls = st1.createCalls := by
  refine ⟨rfl, by decide, ?_⟩
  exact provisioner_idempotent
    { platform :=
        { agents := [], nextId := 0, resolveTool := fun _ => some "tid",
          models := ["letta/letta-free"] },
      createCalls := 0, createLog := [] } rfl (by decide)

/-- Embeds `MealieClient.headers` (mealie_client.py:13-17): builds the accept
and Authorization headers; `"Bearer " + self.api_key` raises `TypeError`
(modelled as `Except.error "TypeError"`) when the api key is Python `None`. -/
def MealieClient.headers (c : MealieClient) : Except String (List (String × String)) :=
  match c.api_key with
  | none => Except.error "TypeError"
  | some k => Except.ok [("accept", "application/json"), ("Authorization", "Bearer " ++ k)]

/-- Oracle for the requests-library calls of the client operations:
`respond method url hdrs` is the text the operation ultimately produces from
the response (status checking, JSON parsing and formatting folded in), or a
raised error. -/
structure RequestsOracle where
  respond : String → String → List (String × String) → Except String String

/-- Embeds `MealieClient.find_recipes_in_mealie` (mealie_client.py:19-96):
builds the headers — raising when the api key is absent — then issues the
GET; query parameters and result formatting are folded into the oracle. -/
def MealieClient.find_recipes_in_mealie (o : RequestsOracle) (c : MealieClient)
    (search_term : String) (categories_csv tags_csv : Option String) :
    Except String String :=
  match c.headers with
  | Except.error e => Except.error e
  | Except.ok h => o.respond "GET" (c.base_url ++ "/api/recipes") h

/-- Embeds `MealieClient.add_recipe_to_mealie_from_url`
(mealie_client.py:98-121): headers, then the create-from-url POST; body and
response handling folded into the oracle. -/
def MealieClient.add_recipe_to_mealie_from_url (o : RequestsOracle)
    (c : MealieClient) (recipe_url : String) (include_tags : Bool) :
    Except String String :=
  match c.headers with
  | Except.error e => Except.error e
  | Except.ok h => o.respond "POST" (c.base_url ++ "/api/recipes/create/url") h

/-- Embeds `MealieClient.get_recipe_in_mealie` (mealie_client.py:123-182):
headers, then the GET by slug; response parsing folded into the oracle. -/
def MealieClient.get_recipe_in_mealie (o : RequestsOracle) (c : MealieClient)
    (slug : String) : Except String String :=
  match c.headers with
  | Except.error e => Except.error e
  | Except.ok h => o.respond "GET" (c.base_url ++ "/api/recipes/" ++ slug) h

/-- Embeds `MealieClient.add_recipe_note` (mealie_client.py:184-215): headers
and GET of the recipe, then headers again and the PATCH with the appended
note; body handling folded into the oracle. -/
def MealieClient.add_recipe_note (o : RequestsOracle) (c : MealieClient)
    (recipe_slug note_title note_text : String) : Except String String :=
  match c.headers with
  | Except.error e => Except.error e
  | Except.ok h =>
      match o.respond "GET" (c.base_url ++ "/api/recipes/" ++ recipe_slug) h with
      | Except.error e => Except.error e
      | Except.ok _ =>
          match c.headers with
          | Except.error e => Except.error e
          | Except.ok h2 =>
              o.respond "PATCH" (c.base_url ++ "/api/recipes/" ++ recipe_slug) h2

/-- C10: When the credential file yields no truthy token, the login
fails and the mint produces nothing usable, the bootstrap still constructs
the recipe client with an absent api key; every registered recipe tool
operation on that client then raises `TypeError` while building the
Authorization header, and the header construction succeeds exactly when the
api key is a string. -/
theorem no_credential_header_type_error (env : MealieEnv) (base : String)
    (file : Option TokenFile)
    (hfile : pyTruthy (load_api_token file) = false)
    (h1 : env.authTokenResp "changeme@example.com" "MyPassword" = none)
    (h2 : ∀ t, env.createTokenResp none = some (201, some t) → t = "") :
    (setup_token_flow env base none (initBootState file)).mealie_client =
      { base_url := base, api_key := none } ∧
    (MealieClient.mk base none).headers = Except.error "TypeError" ∧
    (∀ o s cc tc, MealieClient.find_recipes_in_mealie o
      { base_url := base, api_key := none } s cc tc = Except.error "TypeError") ∧
    (∀ o u b, MealieClient.add_recipe_to_mealie_from_url o
      { base_url := base, api_key := none } u b = Except.error "TypeError") ∧
    (∀ o s, MealieClient.get_recipe_in_mealie o
      { base_url := base, api_key := none } s = Except.error "TypeError") ∧
    (∀ o s t x, MealieClient.add_recipe_note o
      { base_url := base, api_key := none } s t x = Except.error "TypeError") ∧
    (∀ k, (MealieClient.mk base (some k)).headers =
      Except.ok [("accept", "application/json"),
                 ("Authorization", "Bearer " ++ k)]) := by
  obtain ⟨v, heq⟩ := setup_token_flow_mint_path env base none file (Or.inl hfile)
  obtain ⟨_, _, _, hcl⟩ := mintFrom_failure env base none
    { initBootState file with validateCalls := v } h1 h2
  refine ⟨by rw [heq]; exact hcl, rfl, ?_, ?_, ?_, ?_, fun k => rfl⟩
  · intro o s cc tc
    simp [MealieClient.find_recipes_in_mealie, MealieClient.headers]
  · intro o u b
    simp [MealieClient.add_recipe_to_mealie_from_url, MealieClient.headers]
  · intro o s
    simp [MealieClient.get_recipe_in_mealie, MealieClient.headers]
  · intro o s t x
    simp [MealieClient.add_recipe_note, MealieClient.headers]

/-- Witness for C10: absent file, all backend calls fail; the constructed
client has an absent api key. -/
theorem no_credential_header_type_error_witness :
    pyTruthy (load_api_token none) = false ∧
    (setup_token_flow
        { validateResp := fun _ => none,
          authTokenResp := fun _ _ => none,
          createTokenResp := fun _ => none }
        "http://mealie" none (initBootState none)).mealie_client =
      { base_url := "http://mealie", api_key := none } := by
  refine ⟨rfl, ?_⟩
  exact (no_credential_header_type_error
    { validateResp := fun _ => none,
      authTokenResp := fun _ _ => none,
      createTokenResp := fun _ => none }
    "http://mealie" none rfl rfl (fun t h => by cases h)).1

/-- Counterexample to C7 as stated: an environment providing only
MEALIE_BASE_URL and RECIPELLM_MCP_SERVER_URL — with LETTA_BASE_URL and
LETTA_TOKEN absent and the fallback credential file absent — passes the
startup checks: startup succeeds instead of aborting, and the platform
client is simply constructed with absent base url and token. -/
theorem env_vars_not_all_required :
    ((fun name => if name == "MEALIE_BASE_URL" then some "http://mealie"
      else if name == "RECIPELLM_MCP_SERVER_URL" then some "http://mcp"
      else none) : String → Option String) "LETTA_BASE_URL" = none ∧
    ((fun name => if name == "MEALIE_BASE_URL" then some "http://mealie"
      else if name == "RECIPELLM_MCP_SERVER_URL" then some "http://mcp"
      else none) : String → Option String) "LETTA_TOKEN" = none ∧
    mainStartup
      (fun name => if name == "MEALIE_BASE_URL" then some "http://mealie"
        else if name == "RECIPELLM_MCP_SERVER_URL" then some "http://mcp"
        else none) none =
      Except.ok { mealie_base_url := some "http://mealie",
                  mealie_api_key := none,
                  recipellm_mcp_server_url := some "http://mcp" } ∧
    get_letta
      (fun name => if name == "MEALIE_BASE_URL" then some "http://mealie"
        else if name == "RECIPELLM_MCP_SERVER_URL" then some "http://mcp"
        else none) = { base_url := none, token := none } := by
  exact ⟨rfl, rfl, rfl, rfl⟩

/-- C7 as amended: At startup only the recipe-backend base URL
(MEALIE_BASE_URL) and the tool-source base URL (RECIPELLM_MCP_SERVER_URL)
are required environment values: startup succeeds exactly when both are
truthy, and otherwise exits with code 1.  The recipe-backend fallback
credential is read from the credential file, not the environment, and may be
absent; the agent-platform base URL and token are read from the environment
without any presence check, so their absence is not a startup error. -/
theorem mainStartup_required_vars (g : String → Option String)
    (file : Option TokenFile) :
    ((∃ c, mainStartup g file = Except.ok c) ↔
      (pyTruthy (g "MEALIE_BASE_URL") = true ∧
        pyTruthy (g "RECIPELLM_MCP_SERVER_URL") = true)) ∧
    (∀ c, mainStartup g file = Except.ok c →
      c.mealie_api_key = load_api_token file) ∧
    get_letta g = { base_url := g "LETTA_BASE_URL", token := g "LETTA_TOKEN" } := by
  refine ⟨⟨?_, ?_⟩, ?_, rfl⟩
  · rintro ⟨c, hc⟩
    unfold mainStartup at hc
    by_cases hb : pyTruthy (g "MEALIE_BASE_URL") = false
    · simp [hb] at hc
    · by_cases hr : pyTruthy (g "RECIPELLM_MCP_SERVER_URL") = false
      · simp [hb, hr] at hc
      · constructor
        · revert hb
          cases pyTruthy (g "MEALIE_BASE_URL") <;> simp
        · revert hr
          cases pyTruthy (g "RECIPELLM_MCP_SERVER_URL") <;> simp
  · rintro ⟨hb, hr⟩
    refine ⟨{ mealie_base_url := g "MEALIE_BASE_URL",
              mealie_api_key := load_api_token file,
              recipellm_mcp_server_url := g "RECIPELLM_MCP_SERVER_URL" }, ?_⟩
    unfold mainStartup
    simp [hb, hr]
  · intro c hc
    unfold mainStartup at hc
    by_cases hb : pyTruthy (g "MEALIE_BASE_URL") = false
    · simp [hb] at hc
    · by_cases hr : pyTruthy (g "RECIPELLM_MCP_SERVER_URL") = false
      · simp [hb, hr] at hc
      · simp [hb, hr] at hc
        rw [← hc]

/-- Witness for C7: with every environment variable set to its own name,
startup succeeds and the resulting fallback credential is read from the
(absent) credential file. -/
theorem mainStartup_required_vars_witness :
    mainStartup (fun v => some v) none =
      Except.ok { mealie_base_url := some "MEALIE_BASE_URL",
                  mealie_api_key := none,
                  recipellm_mcp_server_url := some "RECIPELLM_MCP_SERVER_URL" } ∧
    ({ mealie_base_url := some "MEALIE_BASE_URL",
       mealie_api_key := none,
       recipellm_mcp_server_url := some "RECIPELLM_MCP_SERVER_URL" } :
        MainConfig).mealie_api_key = load_api_token none := by
  refine ⟨rfl, ?_⟩
  exact (mainStartup_required_vars (fun v => some v) none).2.1 _ rfl
